import Mathlib

/-!
Shallow embedding of the vendor onboarding workflow of the
procurement-ai-orchestrator repository: the LangGraph state graph built in
src/orchestrator/vendor_onboarding.py, the compiled application and the
execute/resume entry points of src/orchestrator/workflow.py, and the
database synchronisation of src/orchestrator/state_manager.py.

Modelling conventions:
* Python dicts become association lists; vendor_data values are modelled as
  strings, and a field is falsy exactly when it is the empty string.
* datetime.now() timestamps (created_at, updated_at) are wall-clock effects
  with no influence on control flow; they are omitted from the state.
* Approval records are read by the code only through their approved key, so
  they are modelled as one-field structures.
* Durable writes made by node functions (log_state_transition and
  sync_vendor_state_to_db) are modelled as an emitted effect trace; a node
  fails (Except.error) exactly when sync_vendor_state_to_db would raise a
  KeyError because a required vendor_data key is absent, mirroring the
  unguarded vendor_data[...] lookups in state_manager.py.
* The LangGraph runtime is modelled after the configuration in workflow.py:
  the TypedDict state declares no channel reducers, so update_state replaces
  each supplied top-level field wholesale; compile(interrupt_before =
  [central_review], interrupt_after = [parallel_routing]) pauses before
  central_review and after parallel_routing; invoke runs steps up to the
  default recursion_limit of 25 and then stops with GraphRecursionError.
  Resuming a thread whose checkpoint has no pending node still applies
  update_state (it writes a fresh checkpoint unconditionally); for every
  update considered in this development the subsequent routing is terminal,
  so the following invoke runs no node and returns the stored values.
-/

namespace VendorOnboarding

/-- A department approval record; the code reads only its approved key
(aggregate_dept_approvals does dept[...] on the approved key). -/
structure Decision where
  approved : Bool
  deriving DecidableEq, Repr

/-- The central manager approval record; the code reads only its approved
key (should_proceed_after_central_review). -/
structure CentralApproval where
  approved : Bool
  deriving DecidableEq, Repr

/-- The VendorOnboardingState TypedDict of src/orchestrator/states.py,
minus the two datetime fields (see the module docstring). -/
structure VendorOnboardingState where
  request_id : String
  workflow_type : String
  current_status : String
  vendor_data : List (String × String)
  central_manager_approval : Option CentralApproval
  dept_approvals : List (String × Option Decision)
  risk_assessment : Option Int
  error : Option String
  deriving DecidableEq, Repr

/-- Python dict lookup on a string-keyed association list. -/
def lookupStr (vd : List (String × String)) (k : String) : Option String :=
  (vd.find? (fun kv => kv.1 == k)).map (fun kv => kv.2)

/-- Lookup of one department slot in dept_approvals. -/
def lookupSlot (s : VendorOnboardingState) (k : String) : Option (Option Decision) :=
  (s.dept_approvals.find? (fun kv => kv.1 == k)).map (fun kv => kv.2)

/-- A durable write performed from inside a node function, as recorded by
the embedding: an audit row insert (log_state_transition) or the vendor and
workflow_requests upsert (sync_vendor_state_to_db). -/
inductive Effect where
  | logTransition (request_id : String) (from_status : String) (to_status : String)
      (reason : Option String)
  | syncVendorStateToDb (s : VendorOnboardingState)
  deriving DecidableEq, Repr

/-- True exactly for the DB upsert effect. -/
def isSyncEffect : Effect → Bool
  | Effect.syncVendorStateToDb _ => true
  | _ => false

/-- The required_fields list of validate_submission. -/
def required_fields : List String := ["name", "category", "contact_email", "tax_id"]

/-- Python: f not in vendor_data or not vendor_data[f]. -/
def fieldMissing (vd : List (String × String)) (f : String) : Bool :=
  match lookupStr vd f with
  | none => true
  | some v => v == ""

/-- sync_vendor_state_to_db reads vendor_data[name], [category],
[contact_email] and [tax_id] unconditionally; it raises a KeyError unless
all four keys are present (empty values are fine). -/
def syncKeysPresent (vd : List (String × String)) : Bool :=
  (lookupStr vd "name").isSome && (lookupStr vd "category").isSome &&
  (lookupStr vd "contact_email").isSome && (lookupStr vd "tax_id").isSome

/-- Message of the exception re-raised by sync_vendor_state_to_db. -/
def syncKeyError : String := "Failed to sync vendor state to DB: KeyError"

/-- Node validate of vendor_onboarding.py. The Python code tests the
missing list first; the branches are kept verbatim otherwise. -/
def validate_submission (s : VendorOnboardingState) :
    Except String (VendorOnboardingState × List Effect) :=
  let missing := required_fields.filter (fun f => fieldMissing s.vendor_data f)
  if missing.isEmpty then
    let new_state := { s with current_status := "CENTRAL_PENDING", error := none }
    if syncKeysPresent new_state.vendor_data then
      Except.ok (new_state,
        [Effect.logTransition s.request_id s.current_status "CENTRAL_PENDING" none,
         Effect.syncVendorStateToDb new_state])
    else Except.error syncKeyError
  else
    let msg := "Missing required fields: " ++ String.intercalate ", " missing
    let new_state := { s with current_status := "REJECTED", error := some msg }
    if syncKeysPresent new_state.vendor_data then
      Except.ok (new_state,
        [Effect.logTransition s.request_id s.current_status "REJECTED"
           (some ("Validation failed: " ++ msg)),
         Effect.syncVendorStateToDb new_state])
    else Except.error syncKeyError

/-- Node central_review: returns the state unchanged, no writes. -/
def central_manager_review (s : VendorOnboardingState) :
    Except String (VendorOnboardingState × List Effect) :=
  Except.ok (s, [])

/-- Node parallel_routing: initialises the three department slots. -/
def route_to_parallel_approvals (s : VendorOnboardingState) :
    Except String (VendorOnboardingState × List Effect) :=
  let new_state := { s with current_status := "DEPT_REVIEW",
                            dept_approvals := [("finance", none), ("legal", none),
                                               ("business", none)] }
  if syncKeysPresent new_state.vendor_data then
    Except.ok (new_state,
      [Effect.logTransition s.request_id s.current_status "DEPT_REVIEW" none,
       Effect.syncVendorStateToDb new_state])
  else Except.error syncKeyError

/-- Node aggregate: if any slot is still None the state is returned
unchanged with no writes; otherwise the AND-merge decides the final status
and the result is logged and synced. -/
def aggregate_dept_approvals (s : VendorOnboardingState) :
    Except String (VendorOnboardingState × List Effect) :=
  let approvals := s.dept_approvals
  if approvals.any (fun kv => kv.2.isNone) then
    Except.ok (s, [])
  else
    let all_approved := approvals.all (fun kv =>
      match kv.2 with
      | some d => d.approved
      | none => true)
    let final_status := if all_approved then "APPROVED" else "REJECTED"
    let new_state := { s with current_status := final_status }
    if syncKeysPresent new_state.vendor_data then
      Except.ok (new_state,
        [Effect.logTransition s.request_id s.current_status final_status
           (some "All department approvals collected"),
         Effect.syncVendorStateToDb new_state])
    else Except.error syncKeyError

/-- Conditional router after validate. -/
def should_proceed_after_validation (s : VendorOnboardingState) : String :=
  if s.current_status == "REJECTED" then "reject" else "proceed"

/-- Conditional router after central_review; a missing or falsy approval
record and a falsy approved key all route to rejected. -/
def should_proceed_after_central_review (s : VendorOnboardingState) : String :=
  match s.central_manager_approval with
  | none => "rejected"
  | some a => if a.approved then "approved" else "rejected"

/-- Conditional router after aggregate. -/
def check_all_dept_approvals_complete (s : VendorOnboardingState) : String :=
  if s.dept_approvals.all (fun kv => kv.2.isSome) then "complete" else "waiting"

/-- The nodes of the graph built by create_vendor_onboarding_workflow,
plus the END marker. -/
inductive Node where
  | validate
  | central_review
  | parallel_routing
  | aggregate
  | END
  deriving DecidableEq, Repr

/-- The node functions registered by add_node. -/
def nodeFn : Node → VendorOnboardingState →
    Except String (VendorOnboardingState × List Effect)
  | Node.validate => validate_submission
  | Node.central_review => central_manager_review
  | Node.parallel_routing => route_to_parallel_approvals
  | Node.aggregate => aggregate_dept_approvals
  | Node.END => fun s => Except.ok (s, [])

/-- The edge map of create_vendor_onboarding_workflow: the conditional
edges evaluated on the freshly produced state. -/
def routeAfter : Node → VendorOnboardingState → Node
  | Node.validate, s =>
      if should_proceed_after_validation s == "reject" then Node.END
      else Node.central_review
  | Node.central_review, s =>
      if should_proceed_after_central_review s == "approved" then Node.parallel_routing
      else Node.END
  | Node.parallel_routing, _ => Node.aggregate
  | Node.aggregate, s =>
      if check_all_dept_approvals_complete s == "complete" then Node.END
      else Node.aggregate
  | Node.END, _ => Node.END

/-- interrupt_before of the compile call in workflow.py. -/
def interrupt_before : List Node := [Node.central_review]

/-- interrupt_after of the compile call in workflow.py. -/
def interrupt_after : List Node := [Node.parallel_routing]

/-- The default LangGraph recursion_limit. -/
def recursion_limit : Nat := 25

/-- How one invoke pass ended. -/
inductive Outcome where
  | paused (next : Node)
  | finished
  | nodeError (node : Node) (msg : String)
  | recursionError (node : Node)
  deriving DecidableEq, Repr

/-- Result of one invoke pass: final state, how it stopped, the nodes it
executed in order, and the durable writes emitted by those nodes. -/
structure RunResult where
  state : VendorOnboardingState
  outcome : Outcome
  visited : List Node
  effects : List Effect
  deriving DecidableEq, Repr

/-- The LangGraph interpreter loop for this graph. The resuming flag is
true only for the first node of a resumed pass, where the interrupt_before
pause has already fired. Fuel exhaustion is GraphRecursionError. -/
def runLoop : Nat → Bool → Node → VendorOnboardingState → RunResult
  | 0, _, node, s => ⟨s, Outcome.recursionError node, [], []⟩
  | fuel + 1, resuming, node, s =>
    if node = Node.END then ⟨s, Outcome.finished, [], []⟩
    else if !resuming && interrupt_before.contains node then
      ⟨s, Outcome.paused node, [], []⟩
    else
      match nodeFn node s with
      | Except.error msg => ⟨s, Outcome.nodeError node msg, [node], []⟩
      | Except.ok (s', effs) =>
        let next := routeAfter node s'
        if interrupt_after.contains node then ⟨s', Outcome.paused next, [node], effs⟩
        else
          let r := runLoop fuel false next s'
          ⟨r.state, r.outcome, node :: r.visited, effs ++ r.effects⟩

/-- Persisted checkpoint for one thread: the stored state and the pending
node (none once END is reached). -/
structure Checkpoint where
  state : VendorOnboardingState
  pos : Option Node
  deriving DecidableEq, Repr

/-- The checkpoint left behind by a pass. -/
def checkpointOf (r : RunResult) : Checkpoint :=
  match r.outcome with
  | Outcome.paused n => ⟨r.state, some n⟩
  | Outcome.nodeError n _ => ⟨r.state, some n⟩
  | Outcome.recursionError n => ⟨r.state, some n⟩
  | Outcome.finished => ⟨r.state, none⟩

/-- execute_workflow of workflow.py: invoke from the entry node. -/
def execute_workflow (initial_state : VendorOnboardingState) : Checkpoint × RunResult :=
  let r := runLoop recursion_limit false Node.validate initial_state
  (checkpointOf r, r)

/-- A state update passed to resume_workflow: one optional value per
top-level channel of the TypedDict. -/
structure Update where
  request_id : Option String
  workflow_type : Option String
  current_status : Option String
  vendor_data : Option (List (String × String))
  central_manager_approval : Option (Option CentralApproval)
  dept_approvals : Option (List (String × Option Decision))
  risk_assessment : Option (Option Int)
  error : Option (Option String)
  deriving DecidableEq, Repr

/-- The update that supplies no channel. -/
def emptyUpdate : Update := ⟨none, none, none, none, none, none, none, none⟩

/-- app.update_state: every supplied top-level channel is replaced
wholesale (LastValue channels, no reducers); omitted channels keep their
stored value. -/
def update_state (s : VendorOnboardingState) (u : Update) : VendorOnboardingState :=
  { request_id := u.request_id.getD s.request_id,
    workflow_type := u.workflow_type.getD s.workflow_type,
    current_status := u.current_status.getD s.current_status,
    vendor_data := u.vendor_data.getD s.vendor_data,
    central_manager_approval := u.central_manager_approval.getD s.central_manager_approval,
    dept_approvals := u.dept_approvals.getD s.dept_approvals,
    risk_assessment := u.risk_assessment.getD s.risk_assessment,
    error := u.error.getD s.error }

/-- resume_workflow of workflow.py: update_state is applied
unconditionally, then invoke(None) continues from the pending node; a
thread with no pending node runs nothing and returns the stored values. -/
def resume_workflow (cp : Checkpoint) (u : Update) : Checkpoint × RunResult :=
  let s := update_state cp.state u
  match cp.pos with
  | some n =>
    let r := runLoop recursion_limit true n s
    (checkpointOf r, r)
  | none => (⟨s, none⟩, ⟨s, Outcome.finished, [], []⟩)

/-- Sequence of resume_workflow calls, threading the checkpoint. -/
def resumeSeq (cp : Checkpoint) (us : List Update) : Checkpoint :=
  us.foldl (fun c u => (resume_workflow c u).1) cp

/-- Every department slot holds a decision. -/
def allDecided (s : VendorOnboardingState) : Bool :=
  s.dept_approvals.all (fun kv => kv.2.isSome)

/-- The AND-merge value computed by aggregate_dept_approvals. -/
def allApprovedB (s : VendorOnboardingState) : Bool :=
  s.dept_approvals.all (fun kv =>
    match kv.2 with
    | some d => d.approved
    | none => true)

/-- The central manager decision counts as a rejection: record absent or
approved key falsy. -/
def centralDenied (s : VendorOnboardingState) : Bool :=
  match s.central_manager_approval with
  | none => true
  | some a => !a.approved

/-- The current_status produced by one aggregation step. -/
def aggStatus (s : VendorOnboardingState) : Except String String :=
  (aggregate_dept_approvals s).map (fun p => p.1.current_status)

/-! Concrete fixtures, taken from the shapes used by the repository test
script scripts/test_vendor_workflow.py. -/

/-- A fully populated vendor_data dict. -/
def baseVendorData : List (String × String) :=
  [("name", "TechVendor Solutions Inc."), ("category", "IT Services"),
   ("contact_email", "contact@techvendor.com"), ("tax_id", "TAX1234")]

/-- A fresh submission state. -/
def baseState : VendorOnboardingState :=
  { request_id := "req-1", workflow_type := "vendor_onboarding",
    current_status := "DRAFT", vendor_data := baseVendorData,
    central_manager_approval := none, dept_approvals := [],
    risk_assessment := none, error := none }

/-- An approved department decision. -/
def yes : Decision := ⟨true⟩

/-- A rejected department decision. -/
def no : Decision := ⟨false⟩

/-- The state stored at the department fan-out interrupt: parallel_routing
has initialised the three pending slots and the checkpoint position is the
aggregate node. -/
def deptReviewState : VendorOnboardingState :=
  { baseState with current_status := "DEPT_REVIEW",
                   central_manager_approval := some ⟨true⟩,
                   dept_approvals := [("finance", none), ("legal", none),
                                      ("business", none)] }

/-- Checkpoint paused after parallel_routing, pending node aggregate. -/
def deptReviewCheckpoint : Checkpoint := ⟨deptReviewState, some Node.aggregate⟩

/-- An update that supplies only the dept_approvals channel. -/
def deptUpdate (d : List (String × Option Decision)) : Update :=
  { emptyUpdate with dept_approvals := some d }

/-! The database model of src/orchestrator/state_manager.py. -/

/-- A row of the vendors table; the upsert key is tax_id (ON CONFLICT),
and the conflicting update rewrites status and risk_score. The updated_at
column is a timestamp and is omitted (see the module docstring). -/
structure VendorRow where
  id : String
  name : String
  category : String
  contact_email : String
  tax_id : String
  status : String
  risk_score : Option Int
  deriving DecidableEq, Repr

/-- The metadata JSON document stored on a workflow_requests row. -/
structure RequestMetadata where
  central_manager_approval : Option CentralApproval
  dept_approvals : List (String × Option Decision)
  error : Option String
  deriving DecidableEq, Repr

/-- A row of the workflow_requests table; the upsert key is the pair
(workflow_type, entity_id), and the conflicting update rewrites
current_status and metadata. -/
structure WorkflowRequestRow where
  id : String
  workflow_type : String
  entity_id : String
  entity_type : String
  current_status : String
  metadata : RequestMetadata
  deriving DecidableEq, Repr

/-- The tables touched by sync_vendor_state_to_db. -/
structure DB where
  vendors : List VendorRow
  workflow_requests : List WorkflowRequestRow
  deriving DecidableEq, Repr

/-- The empty database. -/
def emptyDB : DB := ⟨[], []⟩

/-- sync_vendor_state_to_db of state_manager.py: reads the four
vendor_data keys (raising the wrapped KeyError if one is absent), upserts
the vendors row keyed on tax_id with RETURNING id giving the pre-existing
row id on conflict, then upserts the workflow_requests row keyed on
(workflow_type, entity_id). The write is a plain upsert: no version
column, no compare-and-set, no failure path other than the KeyError. -/
def sync_vendor_state_to_db (db : DB) (s : VendorOnboardingState) :
    Except String DB :=
  match lookupStr s.vendor_data "name", lookupStr s.vendor_data "category",
        lookupStr s.vendor_data "contact_email", lookupStr s.vendor_data "tax_id" with
  | some nm, some cat, some em, some tx =>
    let upsert : List VendorRow × String :=
      match db.vendors.find? (fun r => r.tax_id == tx) with
      | some existing =>
        (db.vendors.map (fun r =>
          if r.tax_id == tx then
            { r with status := s.current_status, risk_score := s.risk_assessment }
          else r), existing.id)
      | none =>
        (db.vendors ++
           [⟨s.request_id, nm, cat, em, tx, s.current_status, s.risk_assessment⟩],
         s.request_id)
    let vendors' := upsert.1
    let vendor_id := upsert.2
    let md : RequestMetadata := ⟨s.central_manager_approval, s.dept_approvals, s.error⟩
    let hit := fun (r : WorkflowRequestRow) =>
      r.workflow_type == s.workflow_type && r.entity_id == vendor_id
    let requests' :=
      if db.workflow_requests.any hit then
        db.workflow_requests.map (fun r =>
          if hit r then { r with current_status := s.current_status, metadata := md }
          else r)
      else
        db.workflow_requests ++
          [⟨s.request_id, s.workflow_type, vendor_id, "vendor", s.current_status, md⟩]
    Except.ok ⟨vendors', requests'⟩
  | _, _, _, _ => Except.error syncKeyError

/-- The stored current_status of the workflow_requests row with the given
id. -/
def requestStatus (db : DB) (rid : String) : Option String :=
  (db.workflow_requests.find? (fun r => r.id == rid)).map
    (fun r => r.current_status)

/-! Further concrete fixtures used by the claim theorems. -/

/-- State at the fan-out in which finance has already recorded an approval
while legal and business are still pending. -/
def c1State : VendorOnboardingState :=
  { deptReviewState with
      dept_approvals := [("finance", some yes), ("legal", none), ("business", none)] }

/-- State in which finance has rejected while legal and business are still
pending. -/
def c2State : VendorOnboardingState :=
  { deptReviewState with
      dept_approvals := [("finance", some no), ("legal", none), ("business", none)] }

/-- A finished instance: all three departments approved and the AND-merge
reached the APPROVED terminal, so the checkpoint has no pending node. -/
def c3Final : VendorOnboardingState :=
  { deptReviewState with
      current_status := "APPROVED",
      dept_approvals := [("finance", some yes), ("legal", some yes),
                         ("business", some yes)] }

/-- The state produced by validate_submission on the base submission. -/
def c5ValidState : VendorOnboardingState :=
  { baseState with current_status := "CENTRAL_PENDING" }

/-- The durable writes emitted by validate_submission on the base
submission: one audit-log insert and one DB sync. -/
def c5ValidEffects : List Effect :=
  [Effect.logTransition "req-1" "DRAFT" "CENTRAL_PENDING" none,
   Effect.syncVendorStateToDb c5ValidState]

/-- A snapshot that a first writer persists: the instance has moved on to
DEPT_REVIEW. -/
def c6First : VendorOnboardingState :=
  { deptReviewState with dept_approvals := [] }

/-- A snapshot held by a second, stale writer of the same instance: loaded
before the first write, still at CENTRAL_PENDING. -/
def c6Stale : VendorOnboardingState :=
  { baseState with current_status := "CENTRAL_PENDING" }

/-- Initial state whose vendor_data has no tax_id key at all, as submitted
by the repository test test_validation_failure. -/
def missingTaxIdState : VendorOnboardingState :=
  { baseState with
      vendor_data := [("name", "Acme"), ("category", "IT"),
                      ("contact_email", "a@acme.com")] }

/-- Initial state whose tax_id key is present but empty. -/
def emptyTaxIdState : VendorOnboardingState :=
  { baseState with
      vendor_data := [("name", "Acme"), ("category", "IT"),
                      ("contact_email", "a@acme.com"), ("tax_id", "")] }

/-- The resume payload carrying only an approved finance decision. -/
def updF : Update := deptUpdate [("finance", some yes)]

/-- The resume payload carrying only an approved legal decision. -/
def updL : Update := deptUpdate [("legal", some yes)]

/-- The resume payload carrying only an approved business decision. -/
def updB : Update := deptUpdate [("business", some yes)]

/-- Checkpoint suspended before central_review awaiting the central
manager, as left by execute_workflow on the base submission. -/
def centralReviewCheckpoint : Checkpoint :=
  ⟨{ baseState with current_status := "CENTRAL_PENDING" }, some Node.central_review⟩

/-- The resume payload in which the central manager rejects. -/
def centralRejectUpdate : Update :=
  { emptyUpdate with central_manager_approval := some (some ⟨false⟩) }

/-- A slot map with finance approved, legal rejected, business pending. -/
def c9PermA : List (String × Option Decision) :=
  [("finance", some yes), ("legal", some no), ("business", none)]

/-- The same slot map with the first two slots swapped. -/
def c9PermB : List (String × Option Decision) :=
  [("legal", some no), ("finance", some yes), ("business", none)]

/-- Fan-out state holding the c9PermA slot map. -/
def c9StateA : VendorOnboardingState :=
  { deptReviewState with dept_approvals := c9PermA }

/-! General helper lemmas. -/

/-- View of Except as a sum, to transport decidable equality. -/
def exceptToSum {ε α : Type} : Except ε α → ε ⊕ α
  | Except.error e => Sum.inl e
  | Except.ok a => Sum.inr a

instance {ε α : Type} [DecidableEq ε] [DecidableEq α] : DecidableEq (Except ε α) :=
  fun a b =>
    decidable_of_iff (exceptToSum a = exceptToSum b)
      (by cases a <;> cases b <;> simp [exceptToSum])

/-- List.any is invariant under permutation. -/
theorem any_of_perm {α : Type} (p : α → Bool) {l l' : List α} (h : l.Perm l') :
    l.any p = l'.any p := by
  induction h with
  | nil => rfl
  | cons x _ ih => simp [List.any_cons, ih]
  | swap x y l => simp only [List.any_cons]; cases p x <;> cases p y <;> simp
  | trans _ _ ih₁ ih₂ => exact ih₁.trans ih₂

/-- List.all is invariant under permutation. -/
theorem all_of_perm {α : Type} (p : α → Bool) {l l' : List α} (h : l.Perm l') :
    l.all p = l'.all p := by
  induction h with
  | nil => rfl
  | cons x _ ih => simp [List.all_cons, ih]
  | swap x y l => simp only [List.all_cons]; cases p x <;> cases p y <;> simp
  | trans _ _ ih₁ ih₂ => exact ih₁.trans ih₂

/-- If every slot holds a decision, no slot is None. -/
theorem any_isNone_eq_false {l : List (String × Option Decision)}
    (h : l.all (fun kv => kv.2.isSome) = true) :
    l.any (fun kv => kv.2.isNone) = false := by
  induction l with
  | nil => rfl
  | cons x xs ih =>
    rw [List.all_cons, Bool.and_eq_true] at h
    obtain ⟨h1, h2⟩ := h
    rw [List.any_cons, ih h2, Bool.or_false]
    cases hx : x.2 with
    | none => rw [hx] at h1; simp at h1
    | some d => simp [hx]

/-- If some slot is None, not every slot holds a decision. -/
theorem all_isSome_eq_false {l : List (String × Option Decision)}
    (h : l.any (fun kv => kv.2.isNone) = true) :
    l.all (fun kv => kv.2.isSome) = false := by
  induction l with
  | nil => simp [List.any_nil] at h
  | cons x xs ih =>
    rw [List.any_cons, Bool.or_eq_true] at h
    rw [List.all_cons]
    cases h with
    | inl h1 =>
      cases hx : x.2 with
      | none => simp
      | some d => rw [hx] at h1; simp at h1
    | inr h2 => rw [ih h2, Bool.and_false]

/-! Claim C1: the resume merge of dept_approvals. -/

/-- C1 counterexample: resuming with only the legal decision erases the
already-recorded finance decision, because update_state replaces the whole
dept_approvals channel instead of merging it key-by-key; the pass even
terminates APPROVED from the single legal slot. -/
theorem c1_single_department_resume_erases_recorded_approval :
    lookupSlot c1State "finance" = some (some yes) ∧
    lookupSlot ((resume_workflow ⟨c1State, some Node.aggregate⟩
      (deptUpdate [("legal", some yes)])).1.state) "finance" = none ∧
    ((resume_workflow ⟨c1State, some Node.aggregate⟩
      (deptUpdate [("legal", some yes)])).1.state).current_status = "APPROVED" := by
  decide

/-- C1 (amended): resume applies state_updates by shallow top-level field
replacement only; a supplied dept_approvals map replaces the stored one
wholesale, so every department absent from the update loses its recorded
decision. -/
theorem c1_update_state_replaces_dept_approvals_wholesale :
    ∀ (s : VendorOnboardingState) (u : Update) (d : List (String × Option Decision)),
      u.dept_approvals = some d →
      (update_state s u).dept_approvals = d ∧
      ∀ k : String, d.find? (fun kv => kv.1 == k) = none →
        lookupSlot (update_state s u) k = none := by
  intro s u d h
  refine ⟨by simp [update_state, h], ?_⟩
  intro k hk
  simp [lookupSlot, update_state, h, hk]

/-- Witness for C1 (amended) at a concrete state and update. -/
theorem c1_wholesale_witness :
    (update_state c1State (deptUpdate [("legal", some yes)])).dept_approvals =
      [("legal", some yes)] ∧
    lookupSlot (update_state c1State (deptUpdate [("legal", some yes)])) "finance" =
      none :=
  ⟨(c1_update_state_replaces_dept_approvals_wholesale c1State _ _ rfl).1,
   (c1_update_state_replaces_dept_approvals_wholesale c1State _ _ rfl).2 "finance"
     (by decide)⟩

/-! Claim C2: rejection short-circuit at the fan-out. -/

/-- C2 counterexample: with finance rejected and the other slots pending,
the aggregation step returns the state unchanged and the router keeps the
self-loop; the instance is not routed to the rejection terminal. -/
theorem c2_rejected_slot_does_not_short_circuit :
    aggregate_dept_approvals c2State = Except.ok (c2State, []) ∧
    routeAfter Node.aggregate c2State = Node.aggregate ∧
    c2State.current_status ≠ "REJECTED" := by
  decide

/-- C2 (amended): a rejected slot among pending ones does not
short-circuit: whenever any slot is still pending the aggregation step is
the identity and the conditional edge routes back to the aggregate node,
even if some slot already holds a rejection. -/
theorem c2_rejection_waits_for_all_slots :
    ∀ s : VendorOnboardingState,
      s.dept_approvals.any (fun kv => kv.2.any (fun d => !d.approved)) = true →
      s.dept_approvals.any (fun kv => kv.2.isNone) = true →
      aggregate_dept_approvals s = Except.ok (s, []) ∧
      routeAfter Node.aggregate s = Node.aggregate := by
  intro s _ hpend
  have hchk : check_all_dept_approvals_complete s = "waiting" := by
    unfold check_all_dept_approvals_complete
    rw [all_isSome_eq_false hpend]
    simp
  constructor
  · simp [aggregate_dept_approvals, hpend]
  · show (if check_all_dept_approvals_complete s == "complete" then Node.END
      else Node.aggregate) = Node.aggregate
    rw [hchk]
    decide

/-- Witness for C2 (amended) at the concrete rejected-plus-pending state. -/
theorem c2_waits_witness :
    aggregate_dept_approvals c2State = Except.ok (c2State, []) ∧
    routeAfter Node.aggregate c2State = Node.aggregate :=
  c2_rejection_waits_for_all_slots c2State (by decide) (by decide)

/-! Claim C3: resume on a non-interrupted instance. -/

/-- C3 counterexample: resume on the finished instance does not fail (no
InvalidResumeError exists in the code) and it mutates the persisted state,
because update_state writes unconditionally before invoke. -/
theorem c3_resume_on_finished_instance_succeeds_and_mutates :
    (resume_workflow ⟨c3Final, none⟩ (deptUpdate [("finance", some no)])).2.outcome =
      Outcome.finished ∧
    (resume_workflow ⟨c3Final, none⟩ (deptUpdate [("finance", some no)])).1.state ≠
      c3Final := by
  decide

/-- C3 (amended): resume on an instance with no pending node never raises:
the update is applied to the stored state unconditionally and the pass
returns it; shown for updates whose slot map routes the aggregate edge to
the terminal, where the embedding of invoke(None) is exact. -/
theorem c3_resume_applies_update_unconditionally :
    ∀ (cp : Checkpoint) (u : Update), cp.pos = none →
      check_all_dept_approvals_complete (update_state cp.state u) = "complete" →
      resume_workflow cp u =
        (⟨update_state cp.state u, none⟩,
         ⟨update_state cp.state u, Outcome.finished, [], []⟩) := by
  intro cp u h _
  simp [resume_workflow, h]

/-- Witness for C3 (amended) at the finished instance. -/
theorem c3_unconditional_witness :
    resume_workflow ⟨c3Final, none⟩ (deptUpdate [("finance", some no)]) =
      (⟨update_state c3Final (deptUpdate [("finance", some no)]), none⟩,
       ⟨update_state c3Final (deptUpdate [("finance", some no)]),
        Outcome.finished, [], []⟩) :=
  c3_resume_applies_update_unconditionally ⟨c3Final, none⟩
    (deptUpdate [("finance", some no)]) rfl (by decide)

/-! Claim C8: missing required field at start. -/

/-- C8: with the tax_id key absent, validate_submission builds the
REJECTED state but the sync_vendor_state_to_db call inside it evaluates
the absent vendor_data key and raises, so the run aborts with the wrapped
KeyError and never reaches the REJECTED terminal, contradicting the claim
and the repository test; with the key present but empty, the claimed
behaviour does hold: terminal REJECTED, the error names the field, and
central_review is never visited. -/
theorem c8_absent_required_key_aborts_run_with_exception :
    (execute_workflow missingTaxIdState).2.outcome =
      Outcome.nodeError Node.validate syncKeyError ∧
    (execute_workflow missingTaxIdState).2.state.current_status = "DRAFT" ∧
    (execute_workflow missingTaxIdState).2.state.current_status ≠ "REJECTED" ∧
    (execute_workflow emptyTaxIdState).2.outcome = Outcome.finished ∧
    (execute_workflow emptyTaxIdState).2.state.current_status = "REJECTED" ∧
    (execute_workflow emptyTaxIdState).2.state.error =
      some "Missing required fields: tax_id" ∧
    Node.central_review ∉ (execute_workflow emptyTaxIdState).2.visited := by
  decide

/-! Claim C4: the keep-waiting self-loop at the aggregation node. -/

/-- While any slot is pending, a pass positioned at the aggregate node
re-executes it around the waiting self-edge until the fuel runs out. -/
theorem runLoop_aggregate_spin (fuel : Nat) (resuming : Bool)
    (s : VendorOnboardingState)
    (h : s.dept_approvals.any (fun kv => kv.2.isNone) = true) :
    runLoop fuel resuming Node.aggregate s =
      ⟨s, Outcome.recursionError Node.aggregate,
       List.replicate fuel Node.aggregate, []⟩ := by
  induction fuel generalizing resuming with
  | zero => rfl
  | succ n ih =>
    have hagg : aggregate_dept_approvals s = Except.ok (s, []) := by
      simp [aggregate_dept_approvals, h]
    have hroute : routeAfter Node.aggregate s = Node.aggregate := by
      show (if check_all_dept_approvals_complete s == "complete" then Node.END
        else Node.aggregate) = Node.aggregate
      unfold check_all_dept_approvals_complete
      rw [all_isSome_eq_false h]
      decide
    have hib : Node.aggregate ∉ interrupt_before := by decide
    have hia : Node.aggregate ∉ interrupt_after := by decide
    show runLoop (n + 1) resuming Node.aggregate s = _
    simp only [runLoop]
    simp [nodeFn, hagg, hroute, hib, hia, ih, List.replicate_succ]

/-- C4 counterexample: resuming the fan-out checkpoint without deciding
every slot does not suspend at an interrupt; the pass executes the
aggregate node 25 times around the self-edge and stops with
GraphRecursionError, the default step budget. -/
theorem c4_resume_with_pending_slot_spins_to_recursion_error :
    (resume_workflow deptReviewCheckpoint emptyUpdate).2.outcome =
      Outcome.recursionError Node.aggregate ∧
    (resume_workflow deptReviewCheckpoint emptyUpdate).2.visited =
      List.replicate recursion_limit Node.aggregate ∧
    recursion_limit = 25 := by
  decide

/-- C4 (amended): the aggregation self-loop is not an interrupt point:
a resume whose merged state still has a pending slot spins the interpreter
around the aggregate self-edge until the step budget of 25 is exhausted
and the pass ends with GraphRecursionError, not with a suspension. -/
theorem c4_pending_slot_spins_until_step_budget :
    ∀ (cp : Checkpoint) (u : Update), cp.pos = some Node.aggregate →
      (update_state cp.state u).dept_approvals.any (fun kv => kv.2.isNone) = true →
      (resume_workflow cp u).2 =
        ⟨update_state cp.state u, Outcome.recursionError Node.aggregate,
         List.replicate recursion_limit Node.aggregate, []⟩ := by
  intro cp u hpos hpend
  simp [resume_workflow, hpos, runLoop_aggregate_spin recursion_limit true _ hpend]

/-- Witness for C4 (amended) at the fan-out checkpoint. -/
theorem c4_spin_witness :
    (resume_workflow deptReviewCheckpoint emptyUpdate).2 =
      ⟨update_state deptReviewCheckpoint.state emptyUpdate,
       Outcome.recursionError Node.aggregate,
       List.replicate recursion_limit Node.aggregate, []⟩ :=
  c4_pending_slot_spins_until_step_budget deptReviewCheckpoint emptyUpdate rfl
    (by decide)

/-! Claim C5: node functions and durable writes. -/

/-- C5 counterexample: executing the validate node on a concrete valid
submission performs durable writes of its own, a log_state_transition
insert followed by a sync_vendor_state_to_db upsert. -/
theorem c5_validate_submission_performs_durable_writes :
    validate_submission baseState = Except.ok (c5ValidState, c5ValidEffects) ∧
    c5ValidEffects.countP isSyncEffect = 1 ∧
    c5ValidEffects.length = 2 := by
  decide

/-- C5 (amended): the node functions themselves persist: every successful
execution of validate_submission and of route_to_parallel_approvals emits
exactly one durable DB sync of its own (in addition to an audit-log
write); only central_manager_review is write-free. -/
theorem c5_nodes_perform_their_own_durable_writes :
    (∀ s ns effs, validate_submission s = Except.ok (ns, effs) →
      effs.countP isSyncEffect = 1 ∧ effs ≠ []) ∧
    (∀ s ns effs, route_to_parallel_approvals s = Except.ok (ns, effs) →
      effs.countP isSyncEffect = 1 ∧ effs ≠ []) ∧
    (∀ s, central_manager_review s = Except.ok (s, [])) := by
  refine ⟨?_, ?_, fun s => rfl⟩
  · intro s ns effs h
    simp only [validate_submission] at h
    split at h <;> split at h <;>
      first
        | (simp only [Except.ok.injEq, Prod.mk.injEq] at h
           obtain ⟨_, h2⟩ := h
           subst h2
           simp [isSyncEffect])
        | exact absurd h (by simp)
  · intro s ns effs h
    simp only [route_to_parallel_approvals] at h
    split at h
    · simp only [Except.ok.injEq, Prod.mk.injEq] at h
      obtain ⟨_, h2⟩ := h
      subst h2
      simp [isSyncEffect]
    · exact absurd h (by simp)

/-- Witness for C5 (amended) at the base submission. -/
theorem c5_write_witness :
    validate_submission baseState = Except.ok (c5ValidState, c5ValidEffects) ∧
    c5ValidEffects.countP isSyncEffect = 1 ∧ c5ValidEffects ≠ [] :=
  ⟨by decide,
   c5_nodes_perform_their_own_durable_writes.1 baseState c5ValidState c5ValidEffects
     (by decide)⟩

/-! Claim C7: the AND-merge once no slot is pending. -/

/-- C7: when every department slot holds a decision (and the vendor_data
keys the sync reads are present, as on any instance past validation), the
aggregation node computes the AND-merge: the new status is APPROVED
exactly when every slot is approved, REJECTED otherwise, and the
conditional edge then routes to the END terminal. -/
theorem c7_and_merge_when_all_slots_decided :
    ∀ s : VendorOnboardingState, allDecided s = true →
      syncKeysPresent s.vendor_data = true →
      ∃ ns effs, aggregate_dept_approvals s = Except.ok (ns, effs) ∧
        (ns.current_status = "APPROVED" ↔ allApprovedB s = true) ∧
        (allApprovedB s = false → ns.current_status = "REJECTED") ∧
        routeAfter Node.aggregate ns = Node.END := by
  intro s hdec hkeys
  have hdec' : s.dept_approvals.all (fun kv => kv.2.isSome) = true := hdec
  have hnone := any_isNone_eq_false hdec'
  cases hA : s.dept_approvals.all (fun kv =>
      match kv.2 with
      | some d => d.approved
      | none => true) with
  | true =>
    refine ⟨{ s with current_status := "APPROVED" },
      [Effect.logTransition s.request_id s.current_status "APPROVED"
        (some "All department approvals collected"),
       Effect.syncVendorStateToDb { s with current_status := "APPROVED" }],
      ?_, ?_, ?_, ?_⟩
    · simp [aggregate_dept_approvals, hnone, hA, hkeys]
    · simp [allApprovedB, hA]
    · intro hfalse
      rw [allApprovedB] at hfalse
      rw [hA] at hfalse
      exact absurd hfalse (by simp)
    · show (if check_all_dept_approvals_complete _ == "complete" then Node.END
        else Node.aggregate) = Node.END
      unfold check_all_dept_approvals_complete
      rw [show ({ s with current_status := "APPROVED"} :
            VendorOnboardingState).dept_approvals = s.dept_approvals from rfl, hdec']
      decide
  | false =>
    refine ⟨{ s with current_status := "REJECTED" },
      [Effect.logTransition s.request_id s.current_status "REJECTED"
        (some "All department approvals collected"),
       Effect.syncVendorStateToDb { s with current_status := "REJECTED" }],
      ?_, ?_, ?_, ?_⟩
    · simp [aggregate_dept_approvals, hnone, hA, hkeys]
    · simp [allApprovedB, hA]
    · intro _
      rfl
    · show (if check_all_dept_approvals_complete _ == "complete" then Node.END
        else Node.aggregate) = Node.END
      unfold check_all_dept_approvals_complete
      rw [show ({ s with current_status := "REJECTED"} :
            VendorOnboardingState).dept_approvals = s.dept_approvals from rfl, hdec']
      decide

/-- Witness for C7 at the fully approved instance. -/
theorem c7_and_merge_witness :
    allDecided c3Final = true ∧ syncKeysPresent c3Final.vendor_data = true ∧
    (∃ ns effs, aggregate_dept_approvals c3Final = Except.ok (ns, effs) ∧
      (ns.current_status = "APPROVED" ↔ allApprovedB c3Final = true) ∧
      (allApprovedB c3Final = false → ns.current_status = "REJECTED") ∧
      routeAfter Node.aggregate ns = Node.END) :=
  ⟨by decide, by decide,
   c7_and_merge_when_all_slots_decided c3Final (by decide) (by decide)⟩

/-! Claim C6: version counter and compare-and-set on save. -/

/-- C6 counterexample: two writers save from the same loaded snapshot of
request req-1; the second, stale save succeeds instead of failing with a
StaleVersionError and silently overwrites the first write (the stored
status reverts from DEPT_REVIEW to CENTRAL_PENDING). -/
theorem c6_stale_save_succeeds_and_overwrites :
    ((sync_vendor_state_to_db emptyDB c6First).map
      (fun db => requestStatus db "req-1")).toOption = some (some "DEPT_REVIEW") ∧
    ((sync_vendor_state_to_db emptyDB c6First).bind
      (fun db => sync_vendor_state_to_db db c6Stale)).toOption.map
        (fun db => requestStatus db "req-1") = some (some "CENTRAL_PENDING") := by
  decide

/-- C6 (amended): persistence is an unconditional upsert: for every
database contents (in particular one that has advanced since the state was
loaded) a save with the required vendor_data keys present succeeds — there
is no version counter and no StaleVersionError — and the saved status
overwrites the stored row (last writer wins). -/
theorem c6_save_never_fails_and_last_writer_wins :
    ∀ (db : DB) (s : VendorOnboardingState),
      syncKeysPresent s.vendor_data = true →
      ∃ db', sync_vendor_state_to_db db s = Except.ok db' ∧
        db'.workflow_requests.any
          (fun r => r.current_status == s.current_status) = true := by
  intro db s hkeys
  simp only [syncKeysPresent, Bool.and_eq_true] at hkeys
  obtain ⟨⟨⟨ha, hb⟩, hc⟩, hd⟩ := hkeys
  obtain ⟨nm, hnm⟩ := Option.isSome_iff_exists.mp ha
  obtain ⟨cat, hcat⟩ := Option.isSome_iff_exists.mp hb
  obtain ⟨em, hem⟩ := Option.isSome_iff_exists.mp hc
  obtain ⟨tx, htx⟩ := Option.isSome_iff_exists.mp hd
  simp only [sync_vendor_state_to_db, hnm, hcat, hem, htx]
  refine ⟨_, rfl, ?_⟩
  split
  all_goals
    split
    next hany =>
      rw [List.any_eq_true] at hany
      obtain ⟨x, hx, hhit⟩ := hany
      rw [List.any_eq_true]
      refine ⟨_, List.mem_map_of_mem _ hx, ?_⟩
      simp [hhit]
    next =>
      rw [List.any_append]
      simp

/-- Witness for C6 (amended): the stale snapshot saves fine on any
database. -/
theorem c6_save_witness :
    ∃ db', sync_vendor_state_to_db emptyDB c6Stale = Except.ok db' ∧
      db'.workflow_requests.any
        (fun r => r.current_status == c6Stale.current_status) = true :=
  c6_save_never_fails_and_last_writer_wins emptyDB c6Stale (by decide)

/-! Claim C9: commutativity of approval arrival order. -/

/-- C9 counterexample: supplying the three approved decisions one per
resume, in two different arrival orders, ends both runs APPROVED but with
different stored terminal states: each resume replaces the whole slot map,
the run terminates after the first single-department resume, and the final
state retains only the last-arrived department. -/
theorem c9_resume_arrival_order_changes_final_state :
    (resumeSeq deptReviewCheckpoint [updF, updL, updB]).state.current_status =
      "APPROVED" ∧
    (resumeSeq deptReviewCheckpoint [updL, updB, updF]).state.current_status =
      "APPROVED" ∧
    (resumeSeq deptReviewCheckpoint [updF, updL, updB]).state ≠
      (resumeSeq deptReviewCheckpoint [updL, updB, updF]).state ∧
    (resume_workflow deptReviewCheckpoint updF).1.pos = none := by
  decide

/-- C9 (amended): the aggregation decision itself is commutative in the
slot map — permuting dept_approvals leaves the status computed by the
aggregation step unchanged — though resume arrival order is not, since
each resume replaces the whole slot map. -/
theorem c9_aggregation_invariant_under_slot_permutation :
    ∀ (s : VendorOnboardingState) (l : List (String × Option Decision)),
      s.dept_approvals.Perm l →
      aggStatus s = aggStatus { s with dept_approvals := l } := by
  intro s l hp
  have hany := any_of_perm (fun kv => kv.2.isNone) hp
  have hall := all_of_perm (fun kv =>
    match kv.2 with
    | some d => d.approved
    | none => true) hp
  simp only [aggStatus, aggregate_dept_approvals]
  rw [← hany, ← hall]
  cases hc : s.dept_approvals.any (fun kv => kv.2.isNone) with
  | true => rfl
  | false =>
    cases hk : syncKeysPresent s.vendor_data with
    | true => simp [Except.map]
    | false => simp [Except.map]

/-- Witness for C9 (amended): swapping the first two slots of a concrete
map leaves the aggregation status unchanged. -/
theorem c9_perm_witness :
    aggStatus c9StateA = aggStatus { c9StateA with dept_approvals := c9PermB } :=
  c9_aggregation_invariant_under_slot_permutation c9StateA c9PermB
    (List.Perm.swap ("legal", some no) ("finance", some yes) [("business", none)])

/-! Claim C10: a central-manager rejection is silent in the stored
status. -/

/-- A pass that starts at the END node and has fuel returns immediately. -/
theorem runLoop_end (fuel : Nat) (resuming : Bool) (s : VendorOnboardingState) :
    runLoop (fuel + 1) resuming Node.END s = ⟨s, Outcome.finished, [], []⟩ :=
  rfl

/-- One resumed step of the interpreter at a non-terminal node that is not
an after-interrupt: the node executes and the pass continues along the
routed edge. -/
theorem runLoop_resumed_step (fuel : Nat) (n : Node) (s : VendorOnboardingState)
    (hne : ¬n = Node.END) (hia : n ∉ interrupt_after) :
    runLoop (fuel + 1) true n s =
      match nodeFn n s with
      | Except.error msg => ⟨s, Outcome.nodeError n msg, [n], []⟩
      | Except.ok (s', effs) =>
        let r := runLoop fuel false (routeAfter n s') s'
        ⟨r.state, r.outcome, n :: r.visited, effs ++ r.effects⟩ := by
  simp only [runLoop]
  rw [if_neg hne]
  simp only [Bool.not_true, Bool.false_and, Bool.false_eq_true, if_false]
  cases hfn : nodeFn n s with
  | error msg => simp
  | ok p =>
    cases p with
    | mk s' effs => simp [hia]

/-- C10: resuming the central-review interrupt with the approval absent or
rejected routes straight to END: only central_review executes, the state
is returned untouched, so the persisted current_status is still
CENTRAL_PENDING and no REJECTED status or error reason is recorded. -/
theorem c10_central_rejection_leaves_status_central_pending :
    ∀ (cp : Checkpoint) (u : Update),
      cp.pos = some Node.central_review →
      (update_state cp.state u).current_status = "CENTRAL_PENDING" →
      centralDenied (update_state cp.state u) = true →
      resume_workflow cp u =
        (⟨update_state cp.state u, none⟩,
         ⟨update_state cp.state u, Outcome.finished, [Node.central_review], []⟩) ∧
      (resume_workflow cp u).2.state.current_status = "CENTRAL_PENDING" ∧
      (resume_workflow cp u).2.state.error = (update_state cp.state u).error ∧
      (resume_workflow cp u).2.effects = [] := by
  intro cp u hpos hstat hden
  have hroute : routeAfter Node.central_review (update_state cp.state u) =
      Node.END := by
    show (if should_proceed_after_central_review _ == "approved" then
      Node.parallel_routing else Node.END) = Node.END
    unfold should_proceed_after_central_review
    unfold centralDenied at hden
    cases hc : (update_state cp.state u).central_manager_approval with
    | none => decide
    | some a =>
      rw [hc] at hden
      rw [Bool.not_eq_true'] at hden
      simp [hden]
  have hrun : runLoop recursion_limit true Node.central_review
      (update_state cp.state u) =
      ⟨update_state cp.state u, Outcome.finished, [Node.central_review], []⟩ := by
    have hend : runLoop 24 false Node.END (update_state cp.state u) =
        ⟨update_state cp.state u, Outcome.finished, [], []⟩ := rfl
    rw [show recursion_limit = 24 + 1 from rfl]
    rw [runLoop_resumed_step 24 Node.central_review _ (by decide) (by decide)]
    simp only [nodeFn, central_manager_review]
    rw [hroute, hend]
    rfl
  have hmain : resume_workflow cp u =
      (⟨update_state cp.state u, none⟩,
       ⟨update_state cp.state u, Outcome.finished, [Node.central_review], []⟩) := by
    simp [resume_workflow, hpos, hrun, checkpointOf]
  refine ⟨hmain, ?_, ?_, ?_⟩ <;> rw [hmain]
  exact hstat

/-- Witness for C10 at the concrete central-review checkpoint with an
explicit central-manager rejection. -/
theorem c10_central_rejection_witness :
    resume_workflow centralReviewCheckpoint centralRejectUpdate =
      (⟨update_state centralReviewCheckpoint.state centralRejectUpdate, none⟩,
       ⟨update_state centralReviewCheckpoint.state centralRejectUpdate,
        Outcome.finished, [Node.central_review], []⟩) ∧
    (resume_workflow centralReviewCheckpoint centralRejectUpdate).2.state.current_status =
      "CENTRAL_PENDING" ∧
    (resume_workflow centralReviewCheckpoint centralRejectUpdate).2.state.error =
      (update_state centralReviewCheckpoint.state centralRejectUpdate).error ∧
    (resume_workflow centralReviewCheckpoint centralRejectUpdate).2.effects = [] :=
  c10_central_rejection_leaves_status_central_pending centralReviewCheckpoint
    centralRejectUpdate rfl (by decide) (by decide)

end VendorOnboarding
